import Mathlib

/-!
Verification development for the sriov-fec operator:
the config-file generator and pf-bb-config tool invoker
(pkg/daemon/bbdevconfig.go) and the cluster-config reconciler
(controllers, SriovFecClusterConfigReconciler).

Shallow embedding conventions:
* Go `int` fields become `Int`; `strconv.Itoa` becomes `toString`.
* A generated ini artifact is a list of sections, each a section name
  with an ordered list of key/value pairs, mirroring the order in which
  the Go code creates sections and sets keys.
* Fallible functions return `Except String _`; a successful generator
  run returns the list of file writes it performed (path and content),
  so an error result by construction means no artifact was written.
* External collaborators (the kubernetes client, the process runner)
  are oracles passed in as parameters; stateful functions additionally
  return the trace of calls they issued against the collaborator.
-/

namespace SriovFec

/-! ## Data model: api/v2 BBDevConfig types (fields as used by bbdevconfig.go) -/

/-- One queue-group spec of the ACC100 variant:
`numQueueGroups`, `numAqsPerGroups`, `aqDepthLog2`. -/
structure QueueGroupConfig where
  NumQueueGroups : Int
  NumAqsPerGroups : Int
  AqDepthLog2 : Int
deriving Repr, DecidableEq

/-- Second-generation (ACC100) BBDev config. -/
structure ACC100BBDevConfig where
  PFMode : Bool
  NumVfBundles : Int
  MaxQueueSize : Int
  Uplink4G : QueueGroupConfig
  Downlink4G : QueueGroupConfig
  Uplink5G : QueueGroupConfig
  Downlink5G : QueueGroupConfig
deriving Repr, DecidableEq

/-- 8-slot VF queue map of the first-generation variant. -/
structure UplinkDownlinkQueues where
  VF0 : Int
  VF1 : Int
  VF2 : Int
  VF3 : Int
  VF4 : Int
  VF5 : Int
  VF6 : Int
  VF7 : Int
deriving Repr, DecidableEq

/-- Modelled from the spec: the `String()` rendering of the 8-slot VF
queue map (the method lives in the api package, which is not part of the
analysed sources) — "an 8-tuple queue map rendered as a single delimited
string". The precise delimiter is irrelevant to every claim below. -/
def UplinkDownlinkQueues.render (q : UplinkDownlinkQueues) : String :=
  String.intercalate "," ([q.VF0, q.VF1, q.VF2, q.VF3, q.VF4, q.VF5, q.VF6, q.VF7].map toString)

/-- Uplink/downlink section of the first-generation variant. -/
structure UplinkDownlink where
  Bandwidth : Int
  LoadBalance : Int
  Queues : UplinkDownlinkQueues
deriving Repr, DecidableEq

/-- First-generation (N3000) BBDev config. -/
structure N3000BBDevConfig where
  PFMode : Bool
  FLRTimeOut : Int
  Uplink : UplinkDownlink
  Downlink : UplinkDownlink
deriving Repr, DecidableEq

/-- Variant container: at most one of the two generations is populated. -/
structure BBDevConfig where
  N3000 : Option N3000BBDevConfig
  ACC100 : Option ACC100BBDevConfig
deriving Repr, DecidableEq

/-! ## Constants from pkg/daemon/bbdevconfig.go -/

def ul : String := "UL"
def dl : String := "DL"
def flr : String := "FLR"
def bandwidth : String := "bandwidth"
def load_balance : String := "load_balance"
def vfqmap : String := "vfqmap"
def flr_time_out : String := "flr_time_out"

def vfbundles : String := "VFBUNDLES"
def maxqsize : String := "MAXQSIZE"
def uplink4g : String := "QUL4G"
def downlink4g : String := "QDL4G"
def uplink5g : String := "QUL5G"
def downlink5g : String := "QDL5G"
def num_vf_bundles : String := "num_vf_bundles"
def max_queue_size : String := "max_queue_size"
def num_qgroups : String := "num_qgroups"
def num_aqs_per_groups : String := "num_aqs_per_groups"
def aq_depth_log2 : String := "aq_depth_log2"
def maxQueueGroups : Int := 8

def mode : String := "MODE"
def pf_mode_en : String := "pf_mode_en"
def pfConfigAppFilepath : String := "/sriov_workdir/pf_bb_config"

/-! ## ConfigCompiler: generate*BBDevConfigFile -/

/-- An ini artifact: ordered sections, each with ordered key=value pairs. -/
def IniFile : Type := List (String × List (String × String))

instance : DecidableEq IniFile := by
  unfold IniFile
  infer_instance

instance : Repr IniFile := by
  unfold IniFile
  infer_instance

/-- Go's `strings.ToLower` restricted to its ASCII action (all driver
strings involved are ASCII), written over the character list so that it
reduces definitionally. -/
def strToLower (s : String) : String := String.mk (s.data.map Char.toLower)

/-- Go renders the PF-mode boolean as the literal "1"/"0". -/
def pfModeValue (b : Bool) : String := if b then "1" else "0"

/-- The ini content built by `generateN3000BBDevConfigFile` after its nil
check: sections MODE, UL, DL, FLR, keys in the order the code sets them. -/
def n3000Ini (nc : N3000BBDevConfig) : IniFile :=
  [ (mode, [(pf_mode_en, pfModeValue nc.PFMode)]),
    (ul, [(bandwidth, toString nc.Uplink.Bandwidth),
          (load_balance, toString nc.Uplink.LoadBalance),
          (vfqmap, nc.Uplink.Queues.render)]),
    (dl, [(bandwidth, toString nc.Downlink.Bandwidth),
          (load_balance, toString nc.Downlink.LoadBalance),
          (vfqmap, nc.Downlink.Queues.render)]),
    (flr, [(flr_time_out, toString nc.FLRTimeOut)]) ]

/-- The ini content built by `generateACC100BBDevConfigFile` after its
capacity check: sections MODE, VFBUNDLES, MAXQSIZE, QUL4G, QDL4G, QUL5G,
QDL5G, keys in the order the code sets them. -/
def acc100Ini (nc : ACC100BBDevConfig) : IniFile :=
  [ (mode, [(pf_mode_en, pfModeValue nc.PFMode)]),
    (vfbundles, [(num_vf_bundles, toString nc.NumVfBundles)]),
    (maxqsize, [(max_queue_size, toString nc.MaxQueueSize)]),
    (uplink4g, [(num_qgroups, toString nc.Uplink4G.NumQueueGroups),
                (num_aqs_per_groups, toString nc.Uplink4G.NumAqsPerGroups),
                (aq_depth_log2, toString nc.Uplink4G.AqDepthLog2)]),
    (downlink4g, [(num_qgroups, toString nc.Downlink4G.NumQueueGroups),
                  (num_aqs_per_groups, toString nc.Downlink4G.NumAqsPerGroups),
                  (aq_depth_log2, toString nc.Downlink4G.AqDepthLog2)]),
    (uplink5g, [(num_qgroups, toString nc.Uplink5G.NumQueueGroups),
                (num_aqs_per_groups, toString nc.Uplink5G.NumAqsPerGroups),
                (aq_depth_log2, toString nc.Uplink5G.AqDepthLog2)]),
    (downlink5g, [(num_qgroups, toString nc.Downlink5G.NumQueueGroups),
                  (num_aqs_per_groups, toString nc.Downlink5G.NumAqsPerGroups),
                  (aq_depth_log2, toString nc.Downlink5G.AqDepthLog2)]) ]

/-- The capacity error message of `generateACC100BBDevConfigFile`. -/
def acc100CapacityErr : String :=
  "Total number of requested queue groups (4G/5G) exceeds the maximum (" ++
    toString maxQueueGroups ++ ")"

/-- `generateN3000BBDevConfigFile`: nil check, build the ini content,
save it to `file`. (`ini.Empty().NewSections` and the log mirror cannot
fail on an in-memory buffer and are not separate outcomes here; `SaveTo`
failure is an external I/O condition outside the function's own logic.)
The `.ok` payload is the list of file writes performed. -/
def generateN3000BBDevConfigFile (nc : Option N3000BBDevConfig) (file : String) :
    Except String (List (String × IniFile)) :=
  match nc with
  | none => .error "received nil N3000BBDevConfig"
  | some nc => .ok [(file, n3000Ini nc)]

/-- `generateACC100BBDevConfigFile`: nil check, capacity check
(`totalQueueGroups > maxQueueGroups` is rejected before any content is
built), then build and save. The `.ok` payload lists the file writes. -/
def generateACC100BBDevConfigFile (nc : Option ACC100BBDevConfig) (file : String) :
    Except String (List (String × IniFile)) :=
  match nc with
  | none => .error "received nil ACC100BBDevConfig"
  | some nc =>
    let total4GQueueGroups := nc.Uplink4G.NumQueueGroups + nc.Downlink4G.NumQueueGroups
    let total5GQueueGroups := nc.Uplink5G.NumQueueGroups + nc.Downlink5G.NumQueueGroups
    let totalQueueGroups := total4GQueueGroups + total5GQueueGroups
    if totalQueueGroups > maxQueueGroups then
      .error acc100CapacityErr
    else
      .ok [(file, acc100Ini nc)]

/-- The file writes an `Except`-valued generator run performed: none on
the error path, the recorded writes on success. -/
def artifactWrites (r : Except String (List (String × IniFile))) : List (String × IniFile) :=
  match r with
  | .error _ => []
  | .ok ws => ws

/-- `generateBBDevConfigFile`: dispatch on the populated variant.
The code checks `pfCfg.ACC100 != nil` first, then `pfCfg.N3000 != nil`,
and only errors with "Received nil configs" when both are nil. -/
def generateBBDevConfigFile (pfCfg : BBDevConfig) (file : String) :
    Except String (List (String × IniFile)) :=
  match pfCfg.ACC100 with
  | some acc =>
    match generateACC100BBDevConfigFile (some acc) file with
    | .error e => .error ("ACC100 config file creation failed, " ++ e)
    | .ok ws => .ok ws
  | none =>
    match pfCfg.N3000 with
    | some n3000 =>
      match generateN3000BBDevConfigFile (some n3000) file with
      | .error e => .error ("N3000 config file creation failed, " ++ e)
      | .ok ws => .ok ws
    | none => .error "Received nil configs"

/-! ## Claim C1 -/

/-- **C1.** For every ACC100 config whose four `numQueueGroups` values sum
to more than 8, `generateACC100BBDevConfigFile` returns the capacity
validation error and performs no file write at the target path. -/
theorem acc100_capacity_rejection (nc : ACC100BBDevConfig) (file : String)
    (h : nc.Uplink4G.NumQueueGroups + nc.Downlink4G.NumQueueGroups +
         nc.Uplink5G.NumQueueGroups + nc.Downlink5G.NumQueueGroups > 8) :
    generateACC100BBDevConfigFile (some nc) file = .error acc100CapacityErr ∧
    artifactWrites (generateACC100BBDevConfigFile (some nc) file) = [] := by
  have hgt : nc.Uplink4G.NumQueueGroups + nc.Downlink4G.NumQueueGroups +
      (nc.Uplink5G.NumQueueGroups + nc.Downlink5G.NumQueueGroups) > maxQueueGroups := by
    unfold maxQueueGroups
    omega
  constructor
  · simp only [generateACC100BBDevConfigFile, if_pos hgt]
  · simp only [generateACC100BBDevConfigFile, if_pos hgt, artifactWrites]

/-- Witness for C1 at a concrete config summing to 9. -/
theorem acc100_capacity_rejection_witness :
    generateACC100BBDevConfigFile
      (some { PFMode := false, NumVfBundles := 16, MaxQueueSize := 1024,
              Uplink4G := ⟨2, 16, 4⟩, Downlink4G := ⟨2, 16, 4⟩,
              Uplink5G := ⟨2, 16, 4⟩, Downlink5G := ⟨3, 16, 4⟩ }) "/sriov_workdir/0000:af:00.0.ini"
      = .error acc100CapacityErr ∧
    artifactWrites (generateACC100BBDevConfigFile
      (some { PFMode := false, NumVfBundles := 16, MaxQueueSize := 1024,
              Uplink4G := ⟨2, 16, 4⟩, Downlink4G := ⟨2, 16, 4⟩,
              Uplink5G := ⟨2, 16, 4⟩, Downlink5G := ⟨3, 16, 4⟩ }) "/sriov_workdir/0000:af:00.0.ini") = [] :=
  acc100_capacity_rejection _ _ (by decide)

/-! ## Claim C2 -/

/-- A concrete valid ACC100 config (queue groups sum to 8). -/
def sampleACC100 : ACC100BBDevConfig :=
  { PFMode := false, NumVfBundles := 16, MaxQueueSize := 1024,
    Uplink4G := ⟨2, 16, 4⟩, Downlink4G := ⟨2, 16, 4⟩,
    Uplink5G := ⟨2, 16, 4⟩, Downlink5G := ⟨2, 16, 4⟩ }

/-- A concrete N3000 config. -/
def sampleN3000 : N3000BBDevConfig :=
  { PFMode := false, FLRTimeOut := 610,
    Uplink := ⟨3, 128, ⟨16, 16, 16, 16, 16, 16, 16, 16⟩⟩,
    Downlink := ⟨3, 128, ⟨16, 16, 16, 16, 16, 16, 16, 16⟩⟩ }

/-- **C2 counterexample.** The claim says a BBDevConfig with *both*
variants set is an error; in the code, `generateBBDevConfigFile` tests
`ACC100 != nil` first and happily produces the ACC100 artifact when both
variants are populated. -/
theorem generateBBDevConfigFile_both_set_not_error :
    generateBBDevConfigFile { N3000 := some sampleN3000, ACC100 := some sampleACC100 }
      "/sriov_workdir/0000:af:00.0.ini"
      = .ok [("/sriov_workdir/0000:af:00.0.ini", acc100Ini sampleACC100)] := by
  rfl

/-- **C2 (amended).** If both variants are nil, `generateBBDevConfigFile`
returns the "Received nil configs" error and writes nothing; if both are
set, the ACC100 variant takes precedence (the result is the same as with
the N3000 variant absent) and no both-set error is raised. -/
theorem generateBBDevConfigFile_dispatch (file : String) (n : N3000BBDevConfig)
    (a : ACC100BBDevConfig) :
    (generateBBDevConfigFile { N3000 := none, ACC100 := none } file
        = .error "Received nil configs" ∧
     artifactWrites (generateBBDevConfigFile { N3000 := none, ACC100 := none } file) = []) ∧
    generateBBDevConfigFile { N3000 := some n, ACC100 := some a } file
      = generateBBDevConfigFile { N3000 := none, ACC100 := some a } file := by
  refine ⟨⟨rfl, rfl⟩, ?_⟩
  simp only [generateBBDevConfigFile]

/-- Witness for the amended C2 at concrete configs. -/
theorem generateBBDevConfigFile_dispatch_witness :
    (generateBBDevConfigFile { N3000 := none, ACC100 := none } "/tmp/cfg.ini"
        = .error "Received nil configs" ∧
     artifactWrites (generateBBDevConfigFile { N3000 := none, ACC100 := none } "/tmp/cfg.ini") = []) ∧
    generateBBDevConfigFile { N3000 := some sampleN3000, ACC100 := some sampleACC100 } "/tmp/cfg.ini"
      = generateBBDevConfigFile { N3000 := none, ACC100 := some sampleACC100 } "/tmp/cfg.ini" :=
  generateBBDevConfigFile_dispatch "/tmp/cfg.ini" sampleN3000 sampleACC100

/-! ## ToolInvoker: pfBBConfigController -/

/-- The fields of `PhysicalFunctionConfigExt` read by
`initializePfBBConfig` (PCI address, bound PF driver, BBDev config). -/
structure PhysicalFunctionConfigExt where
  PCIAddress : String
  PFDriver : String
  BBDevConfig : BBDevConfig
deriving Repr, DecidableEq

/-- `runPFConfig` validates the device name against the closed set
FPGA_LTE / FPGA_5GNR / ACC100 and builds the pf-bb-config command line;
with a token the command carries `-v <token>` before `-p`. The `.ok`
payload is the argv that would be executed. -/
def runPFConfigCmd (deviceName cfgFilepath pciAddress : String) (token : Option String) :
    Except String (List String) :=
  if deviceName = "FPGA_LTE" ∨ deviceName = "FPGA_5GNR" ∨ deviceName = "ACC100" then
    match token with
    | none => .ok [pfConfigAppFilepath, deviceName, "-c", cfgFilepath, "-p", pciAddress]
    | some t => .ok [pfConfigAppFilepath, deviceName, "-c", cfgFilepath, "-v", t, "-p", pciAddress]
  else
    .error ("incorrect deviceName for pf config: " ++ deviceName)

/-- The token selection in `initializePfBBConfig`: the shared VFIO token
is passed exactly when the bound PF driver is "vfio-pci", compared
case-insensitively (Go lowercases both sides). -/
def selectToken (pfDriver sharedVfioToken : String) : Option String :=
  if strToLower pfDriver = strToLower "vfio-pci" then some sharedVfioToken else none

/-- Externally visible actions of the per-node agent. -/
inductive AgentEffect where
  | writeArtifact (path : String) (content : IniFile)
  | execTool (argv : List String)
  | removeArtifact (path : String)
deriving Repr, DecidableEq

/-- `initializePfBBConfig`: if at least one BBDev variant is populated,
generate the artifact at `<workdir>/<pciAddress>.ini`, run pf-bb-config
(with the VFIO token when the driver matches), and remove the artifact
on exit (the deferred removal is registered only after a successful
generation). If both variants are nil the function logs and succeeds
without doing anything. `workdir` (defined outside the analysed sources)
and the device-name lookup result are parameters; `execErr` is the
oracle outcome of the external tool run. Returns the result and the
trace of effects. -/
def initializePfBBConfig (workdir deviceName : String) (pf : PhysicalFunctionConfigExt)
    (sharedVfioToken : String) (execErr : Option String) :
    Except String Unit × List AgentEffect :=
  if pf.BBDevConfig.N3000.isSome ∨ pf.BBDevConfig.ACC100.isSome then
    let bbdevConfigFilepath := workdir ++ "/" ++ pf.PCIAddress ++ ".ini"
    match generateBBDevConfigFile pf.BBDevConfig bbdevConfigFilepath with
    | .error e => (.error e, [])
    | .ok writes =>
      let writeEffs := writes.map (fun w => AgentEffect.writeArtifact w.1 w.2)
      let token := selectToken pf.PFDriver sharedVfioToken
      match runPFConfigCmd deviceName bbdevConfigFilepath pf.PCIAddress token with
      | .error e =>
        (.error e, writeEffs ++ [AgentEffect.removeArtifact bbdevConfigFilepath])
      | .ok argv =>
        match execErr with
        | some e =>
          (.error e, writeEffs ++ [AgentEffect.execTool argv,
                                   AgentEffect.removeArtifact bbdevConfigFilepath])
        | none =>
          (.ok (), writeEffs ++ [AgentEffect.execTool argv,
                                 AgentEffect.removeArtifact bbdevConfigFilepath])
  else
    (.ok (), [])

/-! ## Claim C8 -/

/-- **C8.** For every valid device family, the pf-bb-config command line
carries `-v <token>` inserted before `-p` exactly when the bound PF
driver equals "vfio-pci" case-insensitively; for any other driver it is
tool-path, deviceFamily, `-c` artifact, `-p` pciAddress with no `-v`. -/
theorem runPFConfig_token_selection (driver sharedTok deviceName cfgFilepath pciAddress : String)
    (hdev : deviceName = "FPGA_LTE" ∨ deviceName = "FPGA_5GNR" ∨ deviceName = "ACC100") :
    runPFConfigCmd deviceName cfgFilepath pciAddress (selectToken driver sharedTok) =
      (if strToLower driver = "vfio-pci" then
        .ok [pfConfigAppFilepath, deviceName, "-c", cfgFilepath, "-v", sharedTok, "-p", pciAddress]
      else
        .ok [pfConfigAppFilepath, deviceName, "-c", cfgFilepath, "-p", pciAddress]) := by
  have hlow : strToLower "vfio-pci" = "vfio-pci" := by decide
  by_cases h : strToLower driver = "vfio-pci"
  · simp [runPFConfigCmd, selectToken, hdev, hlow, h]
  · simp [runPFConfigCmd, selectToken, hdev, hlow, h]

/-- Witness for C8: an upper-case VFIO driver string gets the token, a
non-VFIO driver does not. -/
theorem runPFConfig_token_selection_witness :
    runPFConfigCmd "ACC100" "/sriov_workdir/0000:af:00.0.ini" "0000:af:00.0"
        (selectToken "VFIO-PCI" "tok") =
      .ok [pfConfigAppFilepath, "ACC100", "-c", "/sriov_workdir/0000:af:00.0.ini",
           "-v", "tok", "-p", "0000:af:00.0"] := by
  have h := runPFConfig_token_selection "VFIO-PCI" "tok" "ACC100"
    "/sriov_workdir/0000:af:00.0.ini" "0000:af:00.0" (Or.inr (Or.inr rfl))
  rwa [if_pos (by decide)] at h

/-! ## Claim C10 -/

/-- **C10.** When both BBDevConfig variants are nil, the agent's
`initializePfBBConfig` succeeds with an empty effect trace: no artifact
is generated and the external configuration tool is never invoked. -/
theorem initializePfBBConfig_both_nil_skips (workdir deviceName : String)
    (pf : PhysicalFunctionConfigExt) (sharedVfioToken : String) (execErr : Option String)
    (hn : pf.BBDevConfig.N3000 = none) (ha : pf.BBDevConfig.ACC100 = none) :
    initializePfBBConfig workdir deviceName pf sharedVfioToken execErr = (.ok (), []) := by
  simp [initializePfBBConfig, hn, ha]

/-- Witness for C10 at a concrete both-nil card. -/
theorem initializePfBBConfig_both_nil_skips_witness :
    initializePfBBConfig "/sriov_workdir" "ACC100"
      { PCIAddress := "0000:af:00.0", PFDriver := "pci-pf-stub",
        BBDevConfig := { N3000 := none, ACC100 := none } } "tok" none = (.ok (), []) :=
  initializePfBBConfig_both_nil_skips "/sriov_workdir" "ACC100" _ "tok" none rfl rfl

/-! ## Claim C4: stopPfBBConfig -/

/-- Outcome of the privileged pkill invocation. -/
inductive KillOutcome where
  | exited (code : Nat)
  | failed (msg : String)
deriving Repr, DecidableEq

/-- `execAndSuppress` applied to the pkill command with the filter from
`stopPfBBConfig`: exit code 0 is success; an `ExitError` with code 1 is
suppressed (treated as success); any other exit code, or a non-exit
failure, is the reported error. -/
def execAndSuppressKill (k : KillOutcome) : Option String :=
  match k with
  | .exited c =>
    if c = 0 then none
    else if c = 1 then none
    else some ("pkill exited with code " ++ toString c)
  | .failed m => some m

/-- `stopPfBBConfig`: run the kill step, then unconditionally try to
remove `/tmp/pf_bb_config.<pciAddress>.sock`. The code returns `nil`
from inside the removal-failure branch and only reaches `return err`
(the kill step's result) when the removal succeeds. `sockRemoveFails`
is the oracle outcome of `os.Remove`; the result is `none` for success
or `some msg` for a returned error. -/
def stopPfBBConfig (pciAddress : String) (kill : KillOutcome) (sockRemoveFails : Bool) :
    Option String :=
  let err := execAndSuppressKill kill
  let _sockFileToBeDeleted := "/tmp/pf_bb_config." ++ pciAddress ++ ".sock"
  if sockRemoveFails then none else err

/-- **C4 counterexample.** The claim says a kill exit code other than 0/1
always makes teardown report an ExecError and that the socket-file
removal never changes that outcome; but when the removal fails, the code
returns `nil`, masking the kill error: with kill exit code 2 and a
failing removal, teardown reports success. -/
theorem stopPfBBConfig_remove_failure_masks_kill_error :
    stopPfBBConfig "0000:af:00.0" (KillOutcome.exited 2) true = none := by
  rfl

/-- **C4 (amended).** Exit code 1 from the kill utility is treated as
success and any other non-zero exit code yields an ExecError, *provided
the socket-file removal succeeds*; when the removal fails, teardown
returns success regardless of the kill step's outcome. -/
theorem stopPfBBConfig_kill_code_policy (pciAddress : String) (c : Nat) (k : KillOutcome)
    (hc0 : c ≠ 0) (hc1 : c ≠ 1) :
    stopPfBBConfig pciAddress (KillOutcome.exited 1) false = none ∧
    stopPfBBConfig pciAddress (KillOutcome.exited c) false
      = some ("pkill exited with code " ++ toString c) ∧
    stopPfBBConfig pciAddress k true = none := by
  refine ⟨rfl, ?_, rfl⟩
  simp [stopPfBBConfig, execAndSuppressKill, hc0, hc1]

/-- Witness for the amended C4 with exit codes 1 and 2. -/
theorem stopPfBBConfig_kill_code_policy_witness :
    stopPfBBConfig "0000:af:00.0" (KillOutcome.exited 1) false = none ∧
    stopPfBBConfig "0000:af:00.0" (KillOutcome.exited 2) false
      = some ("pkill exited with code " ++ toString (2 : Nat)) ∧
    stopPfBBConfig "0000:af:00.0" (KillOutcome.failed "spawn error") true = none :=
  stopPfBBConfig_kill_code_policy "0000:af:00.0" 2 (KillOutcome.failed "spawn error")
    (by decide) (by decide)

/-! ## Data model: sriov-fec api/v1 types used by the cluster reconciler -/

/-- v1 `BBDevConfig` (the flat first-generation shape of the v1 API). -/
structure BBDevConfigV1 where
  NetworkType : String
  PFMode : Bool
  FLRTimeOut : Int
  Downlink : UplinkDownlink
  Uplink : UplinkDownlink
deriving Repr, DecidableEq

/-- v1 `CardConfig`. -/
structure CardConfig where
  PCIAddress : String
  VendorID : String
  PFDeviceID : String
  PFDriver : String
  VFDeviceID : String
  VFDriver : String
  VFAmount : Int
  BBDevConfig : BBDevConfigV1
deriving Repr, DecidableEq

/-- v1 `NodeConfig` (one entry of the cluster config's node list). -/
structure NodeConfig where
  NodeName : String
  OneCardConfigForAll : Bool
  Cards : List CardConfig
deriving Repr, DecidableEq

instance : Inhabited NodeConfig := ⟨⟨"", false, []⟩⟩

/-- `SriovFecClusterConfigSpec`. -/
structure SriovFecClusterConfigSpec where
  OneNodeConfigForAll : Bool
  Nodes : List NodeConfig
deriving Repr, DecidableEq

/-- `SriovFecClusterConfig` (the status sub-object is an output of the
reconciler and is tracked as the trace of status writes instead). -/
structure SriovFecClusterConfig where
  Spec : SriovFecClusterConfigSpec
deriving Repr, DecidableEq

/-- `SriovFecNodeConfigSpec`. -/
structure SriovFecNodeConfigSpec where
  OneCardConfigForAll : Bool
  Cards : List CardConfig
deriving Repr, DecidableEq

/-- `SriovFecNodeConfig` with the metadata fields the reconciler sets
(`SetName`/`SetNamespace`; the constant TypeMeta is omitted). -/
structure SriovFecNodeConfig where
  Name : String
  Namespace : String
  Spec : SriovFecNodeConfigSpec
deriving Repr, DecidableEq

/-! ## NodeConfigRenderer: renderNodeConfigs -/

/-- The `nodeHasAccelerator` closure: the declared node name is compared
against the names in the discovered node list. -/
def nodeHasAccelerator (items : List String) (nodeName : String) : Bool :=
  items.any (fun n => n == nodeName)

/-- One rendered node object: named after the node, namespace "default". -/
def mkRenderedNodeConfig (name : String) (oneCard : Bool) (cards : List CardConfig) :
    SriovFecNodeConfig :=
  { Name := name, Namespace := "default",
    Spec := { OneCardConfigForAll := oneCard, Cards := cards } }

/-- The per-node branch of `renderNodeConfigs`: iterate the declared
entries in order, keep exactly those whose node is in the inventory
(the loop `continue`s over the others). -/
def renderPerNode (items : List String) : List NodeConfig → List SriovFecNodeConfig
  | [] => []
  | e :: rest =>
    if nodeHasAccelerator items e.NodeName then
      mkRenderedNodeConfig e.NodeName e.OneCardConfigForAll e.Cards :: renderPerNode items rest
    else
      renderPerNode items rest

/-- `renderNodeConfigs`: uniform mode emits one object per inventory
node, with `OneCardConfigForAll` hard-coded to `true` and the card list
of the first declared node entry (`Spec.Nodes[0]`; the Go code indexes
unconditionally, which its caller guarantees is safe by validating that
exactly one entry exists — `headI` models that access). Per-node mode
filters the declared entries by inventory membership. -/
def renderNodeConfigs (clusterConfig : SriovFecClusterConfig) (items : List String) :
    List SriovFecNodeConfig :=
  if clusterConfig.Spec.OneNodeConfigForAll then
    items.map (fun node => mkRenderedNodeConfig node true clusterConfig.Spec.Nodes.headI.Cards)
  else
    renderPerNode items clusterConfig.Spec.Nodes

/-- Unfolding lemma for the cons case of `renderPerNode`. -/
theorem renderPerNode_cons (items : List String) (e : NodeConfig) (rest : List NodeConfig) :
    renderPerNode items (e :: rest) =
      if nodeHasAccelerator items e.NodeName then
        mkRenderedNodeConfig e.NodeName e.OneCardConfigForAll e.Cards :: renderPerNode items rest
      else renderPerNode items rest := rfl

/-- `renderPerNode` is the filter of the declared entries by inventory
membership, mapped to rendered objects. -/
theorem renderPerNode_eq_filter_map (items : List String) (l : List NodeConfig) :
    renderPerNode items l =
      (l.filter (fun e => nodeHasAccelerator items e.NodeName)).map
        (fun e => mkRenderedNodeConfig e.NodeName e.OneCardConfigForAll e.Cards) := by
  induction l with
  | nil => rfl
  | cons e rest ih =>
    rw [renderPerNode_cons, List.filter_cons]
    by_cases h : nodeHasAccelerator items e.NodeName
    · rw [if_pos h, if_pos (by simpa using h), List.map_cons, ih]
    · rw [if_neg h, if_neg (by simpa using h), ih]

/-- `nodeHasAccelerator` decides inventory membership. -/
theorem nodeHasAccelerator_iff (items : List String) (n : String) :
    nodeHasAccelerator items n = true ↔ n ∈ items := by
  unfold nodeHasAccelerator
  rw [List.any_eq_true]
  constructor
  · rintro ⟨x, hx, hbeq⟩
    rw [beq_iff_eq] at hbeq
    rwa [hbeq] at hx
  · intro hn
    exact ⟨n, hn, beq_iff_eq.mpr rfl⟩

/-! ## Claim C6 -/

/-- **C6.** In uniform mode with the single declared node entry `n0`,
rendering emits exactly one object per inventory node, named after that
node and carrying `n0`'s card list verbatim; the output length equals
the inventory length. -/
theorem render_uniform_fanout (cc : SriovFecClusterConfig) (items : List String)
    (n0 : NodeConfig) (hu : cc.Spec.OneNodeConfigForAll = true) (hn : cc.Spec.Nodes = [n0]) :
    renderNodeConfigs cc items =
      items.map (fun node => mkRenderedNodeConfig node true n0.Cards) ∧
    (renderNodeConfigs cc items).length = items.length := by
  have h : renderNodeConfigs cc items =
      items.map (fun node => mkRenderedNodeConfig node true n0.Cards) := by
    unfold renderNodeConfigs
    rw [hu, hn]
    rfl
  exact ⟨h, by rw [h, List.length_map]⟩

/-- A concrete single-entry uniform cluster config. -/
def uniformNodeW : NodeConfig := { NodeName := "ignored", OneCardConfigForAll := true, Cards := [] }

/-- A concrete uniform-mode cluster config holding `uniformNodeW`. -/
def ccUniformW : SriovFecClusterConfig :=
  { Spec := { OneNodeConfigForAll := true, Nodes := [uniformNodeW] } }

/-- Witness for C6: one declared entry fanned out over three nodes. -/
theorem render_uniform_fanout_witness :
    renderNodeConfigs ccUniformW ["n1", "n2", "n3"] =
      ["n1", "n2", "n3"].map (fun node => mkRenderedNodeConfig node true uniformNodeW.Cards) ∧
    (renderNodeConfigs ccUniformW ["n1", "n2", "n3"]).length
      = (["n1", "n2", "n3"] : List String).length :=
  render_uniform_fanout ccUniformW ["n1", "n2", "n3"] uniformNodeW rfl rfl

/-! ## Claim C7 -/

/-- **C7.** In per-node mode the rendered set is exactly the declared
entries whose node name is in the inventory, in order (so an absent-node
entry is dropped without stopping the rest, and rendering returns
normally); moreover no rendered object carries the name of an entry
whose node is absent from the inventory. -/
theorem render_per_node_filter (cc : SriovFecClusterConfig) (items : List String)
    (hu : cc.Spec.OneNodeConfigForAll = false) :
    renderNodeConfigs cc items =
      (cc.Spec.Nodes.filter (fun e => nodeHasAccelerator items e.NodeName)).map
        (fun e => mkRenderedNodeConfig e.NodeName e.OneCardConfigForAll e.Cards) ∧
    ∀ e ∈ cc.Spec.Nodes, nodeHasAccelerator items e.NodeName = false →
      ∀ obj ∈ renderNodeConfigs cc items, obj.Name ≠ e.NodeName := by
  have heq : renderNodeConfigs cc items =
      (cc.Spec.Nodes.filter (fun e => nodeHasAccelerator items e.NodeName)).map
        (fun e => mkRenderedNodeConfig e.NodeName e.OneCardConfigForAll e.Cards) := by
    simp [renderNodeConfigs, hu, renderPerNode_eq_filter_map]
  refine ⟨heq, ?_⟩
  intro e _ habs obj hobj hname
  rw [heq] at hobj
  rcases List.mem_map.mp hobj with ⟨e', he', rfl⟩
  have hacc : nodeHasAccelerator items e'.NodeName = true := (List.mem_filter.mp he').2
  have hnn : e'.NodeName = e.NodeName := hname
  rw [hnn, habs] at hacc
  cases hacc

/-- A concrete per-node declared list: entries for n1, n2, n3. -/
def perNodeEntriesW : List NodeConfig :=
  [{ NodeName := "n1", OneCardConfigForAll := false, Cards := [] },
   { NodeName := "n2", OneCardConfigForAll := false, Cards := [] },
   { NodeName := "n3", OneCardConfigForAll := false, Cards := [] }]

/-- A concrete per-node-mode cluster config holding `perNodeEntriesW`. -/
def ccPerNodeW : SriovFecClusterConfig :=
  { Spec := { OneNodeConfigForAll := false, Nodes := perNodeEntriesW } }

/-- Witness for C7: the entry for `n2` (absent from inventory) is
dropped, the surrounding entries for `n1` and `n3` are rendered. -/
theorem render_per_node_filter_witness :
    renderNodeConfigs ccPerNodeW ["n1", "n3"] =
      (perNodeEntriesW.filter (fun e => nodeHasAccelerator ["n1", "n3"] e.NodeName)).map
        (fun e => mkRenderedNodeConfig e.NodeName e.OneCardConfigForAll e.Cards) :=
  (render_per_node_filter ccPerNodeW ["n1", "n3"] rfl).1

/-! ## Claim C9 -/

/-- **C9.** Every rendered node object has namespace "default" and is
named after a node of the inventory, and in uniform mode its spec's
`OneCardConfigForAll` is `true` regardless of the declared value. -/
theorem render_invariants (cc : SriovFecClusterConfig) (items : List String)
    (obj : SriovFecNodeConfig) (h : obj ∈ renderNodeConfigs cc items) :
    obj.Namespace = "default" ∧ obj.Name ∈ items ∧
      (cc.Spec.OneNodeConfigForAll = true → obj.Spec.OneCardConfigForAll = true) := by
  by_cases hu : cc.Spec.OneNodeConfigForAll
  · rw [renderNodeConfigs, if_pos hu] at h
    rcases List.mem_map.mp h with ⟨node, hnode, rfl⟩
    exact ⟨rfl, hnode, fun _ => rfl⟩
  · rw [renderNodeConfigs, if_neg hu, renderPerNode_eq_filter_map] at h
    rcases List.mem_map.mp h with ⟨e, he, rfl⟩
    have hacc : nodeHasAccelerator items e.NodeName = true := (List.mem_filter.mp he).2
    refine ⟨rfl, (nodeHasAccelerator_iff items e.NodeName).mp hacc, ?_⟩
    intro hflag
    exact absurd hflag (by simpa using hu)

/-- Witness for C9 at a concrete per-node rendering. -/
theorem render_invariants_witness :
    (mkRenderedNodeConfig "n1" false []).Namespace = "default" ∧
    (mkRenderedNodeConfig "n1" false []).Name ∈ ["n1"] ∧
    (ccPerNodeW.Spec.OneNodeConfigForAll = true →
      (mkRenderedNodeConfig "n1" false []).Spec.OneCardConfigForAll = true) :=
  render_invariants ccPerNodeW ["n1"] (mkRenderedNodeConfig "n1" false []) (by decide)

/-! ## ReconciliationEngine: syncNodeConfigs / removeOldNodeConfigs -/

/-- Outcome of the client `List` call for stored NodeConfigs: a NotFound
error is tolerated by the code (`err != nil && !IsNotFound(err)`), any
other error aborts. -/
inductive ListOutcome where
  | ok (stored : List String)
  | notFound
  | errored (msg : String)
deriving Repr

/-- Outcome of the client `Get` for a previous NodeConfig. -/
inductive GetOutcome where
  | found
  | notFound
  | errored (msg : String)
deriving Repr

/-- Oracle for the control-plane client: what each call returns,
keyed by the object name where relevant. -/
structure ClientEnv where
  listStored : ListOutcome
  getPrev : String → GetOutcome
  deleteRes : String → Option String
  createRes : String → Option String
  updateRes : String → Option String

/-- One mutating call issued against the control plane. -/
inductive Op where
  | deleteNC (name : String)
  | createNC (name : String)
  | updateNC (name : String)
deriving Repr, DecidableEq

/-- Is this call a deletion? -/
def Op.isDelete : Op → Bool
  | .deleteNC _ => true
  | _ => false

/-- The loop body of `removeOldNodeConfigs`: walk the stored names,
delete each one absent from the target name set, abort on the first
delete failure. Returns the error (if any) and the trace of issued
delete calls. -/
def removeOldLoop (env : ClientEnv) (newNames : List String) :
    List String → Option String × List Op
  | [] => (none, [])
  | nc :: rest =>
    if newNames.contains nc then
      removeOldLoop env newNames rest
    else
      match env.deleteRes nc with
      | some e => (some e, [Op.deleteNC nc])
      | none =>
        let r := removeOldLoop env newNames rest
        (r.1, Op.deleteNC nc :: r.2)

/-- `removeOldNodeConfigs`: list the stored NodeConfigs (NotFound is
tolerated), then delete every stored object whose name is not among the
target objects' names. -/
def removeOldNodeConfigs (env : ClientEnv) (newNodeCfgs : List SriovFecNodeConfig) :
    Option String × List Op :=
  match env.listStored with
  | .errored msg => (some msg, [])
  | .notFound => (none, [])
  | .ok stored => removeOldLoop env (newNodeCfgs.map (fun c => c.Name)) stored

/-- `updateOrCreateNodeConfig`: fetch the previous object by name;
if absent create, if present overwrite its spec and update, and return
any client error. The trace records the mutating call issued. -/
def updateOrCreateNodeConfig (env : ClientEnv) (nodeCfg : SriovFecNodeConfig) :
    Option String × List Op :=
  match env.getPrev nodeCfg.Name with
  | .notFound =>
    (env.createRes nodeCfg.Name, [Op.createNC nodeCfg.Name])
  | .errored msg => (some msg, [])
  | .found =>
    (env.updateRes nodeCfg.Name, [Op.updateNC nodeCfg.Name])

/-- The create/update loop of `syncNodeConfigs`: process the rendered
objects in order, abort on the first failure. -/
def syncLoop (env : ClientEnv) : List SriovFecNodeConfig → Option String × List Op
  | [] => (none, [])
  | c :: rest =>
    match updateOrCreateNodeConfig env c with
    | (some e, t) => (some e, t)
    | (none, t) =>
      let r := syncLoop env rest
      (r.1, t ++ r.2)

/-- `syncNodeConfigs`: first remove stale stored objects, and only if
every removal succeeded run the create/update loop. -/
def syncNodeConfigs (env : ClientEnv) (nodeCfgs : List SriovFecNodeConfig) :
    Option String × List Op :=
  match removeOldNodeConfigs env nodeCfgs with
  | (some e, t) => (some e, t)
  | (none, t) =>
    let r := syncLoop env nodeCfgs
    (r.1, t ++ r.2)

/-- Every call issued by the `removeOldNodeConfigs` loop is a delete. -/
theorem removeOldLoop_all_deletes (env : ClientEnv) (newNames : List String) :
    ∀ stored : List String, ∀ op ∈ (removeOldLoop env newNames stored).2, op.isDelete = true := by
  intro stored
  induction stored with
  | nil => intro op h; cases h
  | cons nc rest ih =>
    intro op h
    rw [removeOldLoop] at h
    by_cases hc : newNames.contains nc
    · rw [if_pos hc] at h
      exact ih op h
    · rw [if_neg hc] at h
      cases hd : env.deleteRes nc with
      | some e =>
        rw [hd] at h
        rcases List.mem_singleton.mp h with rfl
        rfl
      | none =>
        rw [hd] at h
        rcases List.mem_cons.mp h with rfl | h2
        · rfl
        · exact ih op h2

/-- Every call issued by `removeOldNodeConfigs` is a delete. -/
theorem removeOldNodeConfigs_all_deletes (env : ClientEnv) (cfgs : List SriovFecNodeConfig) :
    ∀ op ∈ (removeOldNodeConfigs env cfgs).2, op.isDelete = true := by
  intro op h
  unfold removeOldNodeConfigs at h
  cases hl : env.listStored with
  | errored msg => rw [hl] at h; cases h
  | notFound => rw [hl] at h; cases h
  | ok stored =>
    rw [hl] at h
    exact removeOldLoop_all_deletes env _ stored op h

/-- `updateOrCreateNodeConfig` never issues a delete. -/
theorem updateOrCreate_no_deletes (env : ClientEnv) (c : SriovFecNodeConfig) :
    ∀ op ∈ (updateOrCreateNodeConfig env c).2, op.isDelete = false := by
  intro op h
  unfold updateOrCreateNodeConfig at h
  cases hg : env.getPrev c.Name with
  | notFound =>
    rw [hg] at h
    rcases List.mem_singleton.mp h with rfl
    rfl
  | errored msg => rw [hg] at h; cases h
  | found =>
    rw [hg] at h
    rcases List.mem_singleton.mp h with rfl
    rfl

/-- The create/update loop never issues a delete. -/
theorem syncLoop_no_deletes (env : ClientEnv) :
    ∀ cfgs : List SriovFecNodeConfig, ∀ op ∈ (syncLoop env cfgs).2, op.isDelete = false := by
  intro cfgs
  induction cfgs with
  | nil => intro op h; cases h
  | cons c rest ih =>
    intro op h
    rw [syncLoop] at h
    rcases hu : updateOrCreateNodeConfig env c with ⟨r, t⟩
    cases r with
    | some e =>
      rw [hu] at h
      have := updateOrCreate_no_deletes env c op
      rw [hu] at this
      exact this h
    | none =>
      rw [hu] at h
      rcases List.mem_append.mp h with h1 | h2
      · have := updateOrCreate_no_deletes env c op
        rw [hu] at this
        exact this h1
      · exact ih op h2

/-! ## Claim C5 -/

/-- **C5.** In every sync pass the issued-call trace splits into a block
of deletions followed by a block of non-deletions (all deletes of stale
objects happen before any create/update), and if the removal phase
fails, the pass returns that error and the trace contains no
create/update call at all. -/
theorem sync_deletes_before_creates (env : ClientEnv) (cfgs : List SriovFecNodeConfig) :
    (∃ t1 t2, (syncNodeConfigs env cfgs).2 = t1 ++ t2 ∧
      (∀ op ∈ t1, op.isDelete = true) ∧ (∀ op ∈ t2, op.isDelete = false)) ∧
    (∀ e, (removeOldNodeConfigs env cfgs).1 = some e →
      (syncNodeConfigs env cfgs).1 = some e ∧
      ∀ op ∈ (syncNodeConfigs env cfgs).2, op.isDelete = true) := by
  rcases hr : removeOldNodeConfigs env cfgs with ⟨r, t⟩
  have htdel : ∀ op ∈ t, op.isDelete = true := by
    have := removeOldNodeConfigs_all_deletes env cfgs
    rw [hr] at this
    exact this
  cases r with
  | some e0 =>
    constructor
    · refine ⟨t, [], ?_, htdel, by intro op h; cases h⟩
      simp [syncNodeConfigs, hr]
    · intro e he
      rcases Option.some.inj he with rfl
      constructor
      · simp [syncNodeConfigs, hr]
      · intro op h
        have : (syncNodeConfigs env cfgs).2 = t := by simp [syncNodeConfigs, hr]
        rw [this] at h
        exact htdel op h
  | none =>
    constructor
    · refine ⟨t, (syncLoop env cfgs).2, ?_, htdel, syncLoop_no_deletes env cfgs⟩
      simp [syncNodeConfigs, hr]
    · intro e he
      simp at he

/-- Witness for C5 at a concrete environment in which one stale object
("n1") is deleted and one target object ("n4") is created. -/
def envW : ClientEnv :=
  { listStored := .ok ["n1"],
    getPrev := fun _ => .notFound,
    deleteRes := fun _ => none,
    createRes := fun _ => none,
    updateRes := fun _ => none }

/-- The concrete target list for the C5 witness: one object for "n4". -/
def cfgsW : List SriovFecNodeConfig := [mkRenderedNodeConfig "n4" false []]

/-- Witness for C5: the trace decomposition at `envW`/`cfgsW`. -/
theorem sync_deletes_before_creates_witness :
    ∃ t1 t2, (syncNodeConfigs envW cfgsW).2 = t1 ++ t2 ∧
      (∀ op ∈ t1, op.isDelete = true) ∧ (∀ op ∈ t2, op.isDelete = false) :=
  (sync_deletes_before_creates envW cfgsW).1

/-! ## ReconciliationEngine: Reconcile -/

/-- The honored singleton name. -/
def DEFAULT_CLUSTER_CONFIG_NAME : String := "config"

/-- Outcome of the initial `Get` of the SriovFecClusterConfig. -/
inductive GetCCOutcome where
  | notFound
  | errored (msg : String)
  | found (cc : SriovFecClusterConfig)
deriving Repr

/-- `Reconcile`: one reconciliation pass. `ns` is the NAMESPACE
environment value, `reqNs`/`reqName` the notification identity,
`get` the fetch outcome for the singleton, `nodesRes` the outcome of the
accelerator-node inventory query, and `env` the client oracle used by
the sync phase. The result pairs the value returned to the controller
framework with the ordered list of status writes
(`updateStatus(status, reason)` calls; its own Update error is only
logged, so the attempted write is recorded unconditionally). -/
def Reconcile (ns reqNs reqName : String) (get : GetCCOutcome)
    (nodesRes : Except String (List String)) (env : ClientEnv) :
    Except String Unit × List (String × String) :=
  match get with
  | .notFound => (.ok (), [])
  | .errored msg => (.error msg, [])
  | .found cc =>
    if reqNs ≠ ns ∨ reqName ≠ DEFAULT_CLUSTER_CONFIG_NAME then
      (.ok (), [("Ignored",
        "Only SriovFecClusterConfig with name " ++ DEFAULT_CLUSTER_CONFIG_NAME ++
          " and namespace " ++ ns ++ " are handled")])
    else if cc.Spec.OneNodeConfigForAll = true ∧ cc.Spec.Nodes.length ≠ 1 then
      (.ok (), [("InvalidConfig",
        "OneNodeConfigForAll requested but amount of provided nodeConfigs is not 1")])
    else if cc.Spec.OneNodeConfigForAll = true ∧ cc.Spec.Nodes.headI.OneCardConfigForAll = false then
      (.ok (), [("InvalidConfig",
        "OneNodeConfigForAll requested but OneCardConfigForAll is false. It must be true")])
    else
      match cc.Spec.Nodes.findIdx? (fun nc => nc.OneCardConfigForAll && nc.Cards.length != 1) with
      | some _ =>
        (.ok (), [("InvalidConfig",
          "OneCardConfigForAll requested but amount of provided cardConfigs is not 1")])
      | none =>
        match nodesRes with
        | .error e =>
          (.error e, [("NfdFailure", "failed to obtain nodes with Intel accelerator - check logs")])
        | .ok nodeList =>
          match syncNodeConfigs env (renderNodeConfigs cc nodeList) with
          | (some e, _) =>
            (.error e, [("NodeConfigsCreationFailed", "failed to create NodeConfigs - check logs")])
          | (none, _) =>
            (.ok (), [("NodeConfigsCreated", "")])

/-! ## Claim C3 -/

/-- A client oracle whose delete calls fail: used to drive the sync
phase of a reconciliation pass into its failure path. -/
def envDeleteFails : ClientEnv :=
  { listStored := .ok ["stale"],
    getPrev := fun _ => .notFound,
    deleteRes := fun _ => some "boom",
    createRes := fun _ => none,
    updateRes := fun _ => none }

/-- An empty per-node-mode cluster config (vacuously valid). -/
def ccEmptyW : SriovFecClusterConfig :=
  { Spec := { OneNodeConfigForAll := false, Nodes := [] } }

/-- **C3 counterexample.** The claim says that on a create/update/delete
failure the pass returns the error with the status intentionally left
unset; in the code, the error path of `syncNodeConfigs` *does* write
status: `updateStatus("NodeConfigsCreationFailed", ...)` runs before the
error is returned. At this concrete input (a pass whose only sync work
is a failing delete) the pass returns the error *and* performs a status
write. -/
theorem reconcile_sync_failure_writes_status :
    Reconcile "ns0" "ns0" "config" (.found ccEmptyW) (.ok []) envDeleteFails =
      (.error "boom",
       [("NodeConfigsCreationFailed", "failed to create NodeConfigs - check logs")]) := by
  rfl

/-- **C3 (amended).** For every reconciliation pass in which the sync
phase (create/update/delete against the control plane) fails, the pass
returns the error to the caller and writes exactly one status update,
`NodeConfigsCreationFailed` — the status is not left unset, and the
success status `NodeConfigsCreated` is not written. -/
theorem reconcile_sync_failure_policy (ns : String) (cc : SriovFecClusterConfig)
    (nodeList : List String) (env : ClientEnv) (e : String)
    (hlen : cc.Spec.OneNodeConfigForAll = true → cc.Spec.Nodes.length = 1)
    (hcard : cc.Spec.OneNodeConfigForAll = true → cc.Spec.Nodes.headI.OneCardConfigForAll = true)
    (hloop : cc.Spec.Nodes.findIdx? (fun nc => nc.OneCardConfigForAll && nc.Cards.length != 1) = none)
    (hsync : (syncNodeConfigs env (renderNodeConfigs cc nodeList)).1 = some e) :
    Reconcile ns ns DEFAULT_CLUSTER_CONFIG_NAME (.found cc) (.ok nodeList) env =
      (.error e,
       [("NodeConfigsCreationFailed", "failed to create NodeConfigs - check logs")]) := by
  have hid : ¬(ns ≠ ns ∨ DEFAULT_CLUSTER_CONFIG_NAME ≠ DEFAULT_CLUSTER_CONFIG_NAME) := by
    simp
  have h2 : ¬(cc.Spec.OneNodeConfigForAll = true ∧ cc.Spec.Nodes.length ≠ 1) := by
    rintro ⟨hf, hl⟩
    exact hl (hlen hf)
  have h3 : ¬(cc.Spec.OneNodeConfigForAll = true ∧
      cc.Spec.Nodes.headI.OneCardConfigForAll = false) := by
    rintro ⟨hf, hl⟩
    rw [hcard hf] at hl
    cases hl
  rcases hs : syncNodeConfigs env (renderNodeConfigs cc nodeList) with ⟨r, t⟩
  rw [hs] at hsync
  simp only at hsync
  subst hsync
  simp only [Reconcile, hloop, hs, if_neg hid, if_neg h2, if_neg h3]

/-- Witness for the amended C3 at the concrete failing-delete input. -/
theorem reconcile_sync_failure_policy_witness :
    Reconcile "ns0" "ns0" DEFAULT_CLUSTER_CONFIG_NAME (.found ccEmptyW) (.ok []) envDeleteFails =
      (.error "boom",
       [("NodeConfigsCreationFailed", "failed to create NodeConfigs - check logs")]) :=
  reconcile_sync_failure_policy "ns0" ccEmptyW [] envDeleteFails "boom"
    (fun h => by cases h) (fun h => by cases h) rfl rfl

end SriovFec
